import Mathlib

/-!
Verification of the core logic of a Twitter-to-Discord republishing bot
(`src/index.js`): the rate-limit/backoff tracker, the persisted seen-set
store, the two fetch strategies (authenticated API and Nitter mirror
feed), and the per-handle dispatch cycle.  Network and file-system
effects are modelled by explicit oracles and state passing; timestamps
are integers (milliseconds, as produced by `Date.now()`).
-/

namespace TwitterBot

/-! ## Rate-limit / backoff tracker (src/index.js lines 18-100) -/

/-- Module-level rate-limiting state: `apiFailures` and `lastApiFailure`
(a `Date.now()` millisecond timestamp). -/
structure BackoffState where
  apiFailures : Nat
  lastApiFailure : Int
deriving DecidableEq

/-- Constant `MAX_BACKOFF_MINUTES = 60`. -/
def MAX_BACKOFF_MINUTES : Nat := 60

/-- Embeds `getBackoffMinutes()`: `0` when `apiFailures === 0`, otherwise
`Math.min(Math.pow(2, apiFailures), MAX_BACKOFF_MINUTES)`. -/
def getBackoffMinutes (apiFailures : Nat) : Nat :=
  if apiFailures = 0 then 0
  else min (2 ^ apiFailures) MAX_BACKOFF_MINUTES

/-- Embeds `shouldSkipApi()`: `false` when `apiFailures === 0`; otherwise
true exactly when `Date.now() - lastApiFailure` is below the backoff
window in milliseconds. -/
def shouldSkipApi (s : BackoffState) (now : Int) : Bool :=
  if s.apiFailures = 0 then false
  else if now - s.lastApiFailure < (getBackoffMinutes s.apiFailures : Int) * 60 * 1000 then true
  else false

/-- Embeds `recordApiFailure()`: increments the counter and stamps the
current time. -/
def recordApiFailure (s : BackoffState) (now : Int) : BackoffState :=
  { apiFailures := s.apiFailures + 1, lastApiFailure := now }

/-- Embeds `recordApiSuccess()`: unconditionally resets the counter to 0
(the timestamp field is left as is). -/
def recordApiSuccess (s : BackoffState) : BackoffState :=
  { s with apiFailures := 0 }

/-! ## Persisted seen-set store (src/index.js lines 15-45)

A JavaScript `Set` of strings is insertion-ordered, so the in-memory
seen-set is modelled as a duplicate-free list in insertion order;
`Array.from` on it yields exactly that list. -/

/-- Membership test of the seen-set (`processedTweets.has(id)`). -/
def seenHas (seen : List String) (id : String) : Bool :=
  seen.contains id

/-- Insertion into the seen-set (`processedTweets.add(id)`): a JS `Set`
appends a fresh element at the end and ignores a duplicate. -/
def seenAdd (seen : List String) (id : String) : List String :=
  if seen.contains id then seen else seen ++ [id]

/-- Embeds the array written by `saveProcessedTweets`:
`Array.from(tweets).slice(-1000)`, i.e. the last 1000 entries in
insertion order (the whole list when shorter). -/
def saveProcessedTweets (seen : List String) : List String :=
  seen.drop (seen.length - 1000)

/-- Durable-file state seen by `loadProcessedTweets`: `none` is a missing
file, `some none` a file whose read or `JSON.parse` fails (or whose
parse is not iterable), `some (some ids)` a file parsing to an array of
identifier strings. -/
def FileState : Type := Option (Option (List String))

/-- Embeds `loadProcessedTweets()`: missing file and any parse failure
yield the empty set (the error is logged, never rethrown); a good file
yields `new Set(array)`, which deduplicates keeping first occurrences. -/
def loadProcessedTweets : FileState → List String
  | none => []
  | some none => []
  | some (some ids) => ids.foldl seenAdd []

/-! ## Post model and embed classification (src/index.js lines 59-65, 185-245)

Only the fields the cycle logic reads are embedded; the purely
presentational embed fields (url, createdAt, image, author block) are
omitted.  Boolean fields model JS truthiness of the corresponding
values. -/

/-- Discord embed color for a plain tweet in the `COLORS` table. -/
def COLORS_tweet : Nat := 0x1DA1F2

/-- Gray used for replies in the `COLORS` table. -/
def COLORS_reply : Nat := 0x657786

/-- Green used for retweets in the `COLORS` table. -/
def COLORS_retweet : Nat := 0x17BF63

/-- Orange used for quote tweets in the `COLORS` table. -/
def COLORS_quote : Nat := 0xFFAD1F

/-- Embeds JS `s.startsWith(pat)` (as a character-list computation, so
that concrete instances evaluate by kernel reduction). -/
def startsWithStr (s pat : String) : Bool :=
  pat.data.isPrefixOf s.data

/-- Embeds JS `s.trim()` (ASCII whitespace, matching the inputs that
occur here). -/
def jsTrim (s : String) : String :=
  String.mk (((s.data.dropWhile Char.isWhitespace).reverse.dropWhile Char.isWhitespace).reverse)

/-- The tweet objects produced by both fetch strategies. -/
structure Tweet where
  id : String
  text : String
  username : String
  isReply : Bool
  isRetweet : Bool
  isQuote : Bool
  likes : Option Nat
  retweets : Option Nat
deriving DecidableEq

/-- Embeds the color selection of `createTweetEmbed`: the strategy-set
flags are ORed with the `@` / `RT @` text-prefix heuristics, then the
first matching branch of the reply / retweet / quote chain picks the
color (and, in the source, the matching title). -/
def createTweetEmbedColor (t : Tweet) : Nat :=
  let isReply := t.isReply || startsWithStr t.text "@"
  let isRetweet := t.isRetweet || startsWithStr t.text "RT @"
  if isReply then COLORS_reply
  else if isRetweet then COLORS_retweet
  else if t.isQuote then COLORS_quote
  else COLORS_tweet

/-! ## Primary fetch strategy (src/index.js lines 247-325) -/

/-- One entry of a tweet's `referenced_tweets` array. -/
structure ReferencedTweet where
  type : String
deriving DecidableEq

/-- The relevant fields of a raw API v2 tweet object:
`referenced_tweets` may be absent, and the `public_metrics` counters may
be absent. -/
structure ApiTweet where
  id : String
  text : String
  referenced_tweets : Option (List ReferencedTweet)
  like_count : Option Nat
  retweet_count : Option Nat
deriving DecidableEq

/-- Embeds the per-tweet mapping inside `fetchTweetsFromAPI`: the
classification flags come solely from the structured
`referenced_tweets` types (an absent array behaves as no matches, as
the JS optional chain yields a falsy `undefined`). -/
def apiTweetToTweet (username : String) (t : ApiTweet) : Tweet :=
  { id := t.id
    text := t.text
    username := username
    isReply := (t.referenced_tweets.getD []).any (fun rt => rt.type == "replied_to")
    isRetweet := (t.referenced_tweets.getD []).any (fun rt => rt.type == "retweeted")
    isQuote := (t.referenced_tweets.getD []).any (fun rt => rt.type == "quoted")
    likes := t.like_count
    retweets := t.retweet_count }

/-- Outcome of the two authenticated HTTP calls made by
`fetchTweetsFromAPI`: an axios error thrown at any point (with the
optional HTTP status of `error.response`), a user lookup with no `id`,
or a successful tweets response. -/
inductive ApiOutcome where
  | httpError (status : Option Nat)
  | noUserId
  | success (tweets : List ApiTweet)
deriving DecidableEq

/-- Embeds `fetchTweetsFromAPI(username)`: an empty result with the
state untouched when the bearer token is absent, when the backoff
tracker signals skip, on a missing user id, and on any error — except
that a thrown error whose status is 429 records an API failure; a
successful tweets response records an API success and maps the raw
tweets. -/
def fetchTweetsFromAPI (hasToken : Bool) (s : BackoffState) (now : Int)
    (username : String) (outcome : ApiOutcome) : List Tweet × BackoffState :=
  if !hasToken then ([], s)
  else if shouldSkipApi s now then ([], s)
  else
    match outcome with
    | .httpError status =>
        ([], if status = some 429 then recordApiFailure s now else s)
    | .noUserId => ([], s)
    | .success tweets =>
        (tweets.map (apiTweetToTweet username), recordApiSuccess s)

/-! ## Fallback fetch strategy (src/index.js lines 327-399)

String processing helpers mirror the regular-expression operations of
the item mapping.  `stripTagsAux` carries a fuel argument equal to the
input length so that the recursion is structural; every step consumes
at least one character, so the fuel never runs out on the initial
call. -/

/-- The relevant fields of an RSS feed item as produced by `rss-parser`:
`title`, `content`, `contentSnippet` and `link` may be absent; `guid`
is the feed-provided unique identifier. -/
structure RssItem where
  title : Option String
  content : Option String
  contentSnippet : Option String
  link : Option String
  guid : String
deriving DecidableEq

/-- JS string disjunction `a || b`: an absent or empty string falls
through to the alternative. -/
def jsStrOr (a : Option String) (b : String) : String :=
  match a with
  | none => b
  | some s => if s = "" then b else s

/-- The raw text source of an item:
`item.content || item.contentSnippet || item.title || ''`. -/
def rawText (i : RssItem) : String :=
  jsStrOr i.content (jsStrOr i.contentSnippet (jsStrOr i.title ""))

/-- Skips through the first unescaped `>` character, returning the
remainder, or `none` when no `>` follows (no tag match). -/
def dropTag : List Char → Option (List Char)
  | [] => none
  | c :: rest => if c = '>' then some rest else dropTag rest

/-- Fueled worker for `replace(/<[^>]*>/g, '')`: a `<` opens a tag that
runs to the first `>` (the character class cannot cross one) and is
deleted; a `<` with no closing `>` matches nothing and the rest of the
text is kept verbatim. -/
def stripTagsAux : Nat → List Char → List Char
  | 0, l => l
  | _ + 1, [] => []
  | fuel + 1, c :: rest =>
    if c = '<' then
      match dropTag rest with
      | some rest2 => stripTagsAux fuel rest2
      | none => c :: rest
    else c :: stripTagsAux fuel rest

/-- Embeds `text.replace(/<[^>]*>/g, '')`. -/
def stripTags (s : String) : String :=
  String.mk (stripTagsAux s.data.length s.data)

/-- Substring test on character lists, scanning left to right. -/
def containsSubAux (pat : List Char) : List Char → Bool
  | [] => pat.isEmpty
  | c :: rest => pat.isPrefixOf (c :: rest) || containsSubAux pat rest

/-- Embeds `hay.includes(pat)` on JS strings. -/
def containsSub (hay pat : String) : Bool :=
  containsSubAux pat.data hay.data

/-- Embeds `link.match(/status\x2f(\d+)/)`: scanning left to right, the
first occurrence of the literal `status/` followed by at least one
digit captures the maximal digit run after it. -/
def findStatusId : List Char → Option String
  | [] => none
  | c :: rest =>
    if ("status/".data).isPrefixOf (c :: rest) then
      let ds := ((c :: rest).drop 7).takeWhile Char.isDigit
      if ds.isEmpty then findStatusId rest else some (String.mk ds)
    else findStatusId rest

/-- Embeds the per-item mapping inside `fetchTweetsFromNitter`: the text
is the markup-stripped, trimmed content; the identifier is the numeric
segment of the link's `status/` path, falling back to the guid; the
classification flags come from the `@` / `RT @` text prefixes and from
the title heuristics; a mirror item never carries engagement
counters. -/
def nitterItemToTweet (username : String) (item : RssItem) : Tweet :=
  let text := jsTrim (stripTags (rawText item))
  { id :=
      match item.link with
      | none => item.guid
      | some l => (findStatusId l.data).getD item.guid
    text := text
    username := username
    isReply := startsWithStr text "@"
      || ((item.title.map (fun t => containsSub t "replying to")).getD false)
    isRetweet := startsWithStr text "RT @"
      || ((item.title.map (fun t => startsWithStr t "RT")).getD false)
    isQuote := false
    likes := none
    retweets := none }

/-- The fixed, hard-coded mirror hostname list of
`fetchTweetsFromNitter` in src/index.js, which its mirror loop would
try in order (no configured instance is consulted in this variant). -/
def nitterInstances : List String :=
  ["nitter.poast.org", "nitter.privacydev.net", "nitter.net", "nitter.cz"]

/-- Embeds the mirror loop inside `fetchTweetsFromNitter` (lines
347-398) — unreachable in src/index.js as written, since the
`new Parser` statement above it throws: for each instance in order,
`none` (a thrown request or parse error) and `some []` (a feed with no
items) continue to the next instance; the first instance with at least
one item wins and its five most recent items are mapped to tweets. -/
def nitterLoop (feed : String → Option (List RssItem)) (username : String) :
    List String → List Tweet
  | [] => []
  | inst :: rest =>
    match feed inst with
    | none => nitterLoop feed username rest
    | some items =>
      if items.isEmpty then nitterLoop feed username rest
      else (items.take 5).map (nitterItemToTweet username)

/-- Embeds `fetchTweetsFromNitter(username)` of src/index.js as
written: the module requires only dotenv, axios, fs and path — never
`rss-parser` — so `Parser` is an unbound identifier and the
`new Parser(...)` statement throws a `ReferenceError` on every
invocation, before any mirror is consulted.  The mirror loop below
that statement (embedded separately as `nitterLoop`) is unreachable
dead code. -/
def fetchTweetsFromNitter (_feed : String → Option (List RssItem))
    (_username : String) : Except String (List Tweet) :=
  Except.error "ReferenceError: Parser is not defined"

/-! ## Per-handle dispatch cycle (src/index.js lines 402-461) -/

/-- Runtime truthiness of the configuration values the cycle reads:
`useNitter` models `config.useNitter` (not defined in the src/index.js
`config` object, hence always falsy at runtime) and `hasBearerToken`
models the truthiness of `config.twitterBearerToken`. -/
structure Config where
  useNitter : Bool
  hasBearerToken : Bool
deriving DecidableEq

/-- Embeds the dedup step of `checkForNewTweets`:
`tweets.filter(t ⇒ !processedTweets.has(t.id)).reverse()`. -/
def newTweetsOf (seen : List String) (tweets : List Tweet) : List Tweet :=
  (tweets.filter (fun t => !(seenHas seen t.id))).reverse

/-- Embeds the delivery loop of `checkForNewTweets`: every surviving
tweet is attempted in order against the delivery oracle, and only a
successful delivery adds the identifier to the seen-set.  Returns the
attempt log (tweet, success) and the final seen-set. -/
def dispatchEach (deliver : Tweet → Bool) (seen : List String) :
    List Tweet → List (Tweet × Bool) × List String
  | [] => ([], seen)
  | t :: rest =>
    let success := deliver t
    let seen2 := if success then seenAdd seen t.id else seen
    let res := dispatchEach deliver seen2 rest
    ((t, success) :: res.1, res.2)

/-- Observable outcome of one handle's pass through
`checkForNewTweets`. -/
structure HandleResult where
  apiInvoked : Bool
  apiTweets : List Tweet
  nitterInvoked : Bool
  dispatched : List Tweet
  attempted : List (Tweet × Bool)
  seenAfter : List String
  stateAfter : BackoffState
deriving DecidableEq

/-- Embeds one iteration of the handle loop in `checkForNewTweets`
(lines 406-457): the API strategy runs unless `config.useNitter` is
truthy, the token is missing, or `shouldSkipApi()` holds; whenever the
tweet list is still empty afterwards the Nitter strategy runs; the
fetched list is filtered against the seen-set, reversed, and delivered
one by one.  The profile fetch and embed construction are absorbed
into the delivery oracle (so `stateAfter` tracks the primary fetch's
mutations only, not the ones `fetchUserProfile` can make), and the
fallback is modelled by its mirror loop `nitterLoop` — in the real
program that call throws before the loop runs (see
`fetchTweetsFromNitter`), rejecting the whole cycle, so the stages
past a taken fallback branch describe the loop's would-be results. -/
def checkHandle (cfg : Config) (s : BackoffState) (now : Int) (username : String)
    (apiOutcome : ApiOutcome) (nitterFeed : String → Option (List RssItem))
    (deliver : Tweet → Bool) (seen : List String) : HandleResult :=
  let apiInvoked := !cfg.useNitter && cfg.hasBearerToken && !(shouldSkipApi s now)
  let fetched :=
    if apiInvoked then fetchTweetsFromAPI cfg.hasBearerToken s now username apiOutcome
    else ([], s)
  let nitterInvoked := fetched.1.isEmpty
  let tweets := if nitterInvoked then nitterLoop nitterFeed username nitterInstances else fetched.1
  let dispatched := newTweetsOf seen tweets
  let res := dispatchEach deliver seen dispatched
  { apiInvoked := apiInvoked
    apiTweets := fetched.1
    nitterInvoked := nitterInvoked
    dispatched := dispatched
    attempted := res.1
    seenAfter := res.2
    stateAfter := fetched.2 }

/-! ## Concrete demo inputs used by scenario theorems and witnesses -/

/-- An API tweet carrying only an identifier. -/
def plainApiTweet (id : String) : ApiTweet :=
  { id := id, text := "", referenced_tweets := none
    like_count := none, retweet_count := none }

/-- The newest-first fetch result of the C1 scenario. -/
def demoFetchC1 : List ApiTweet :=
  [plainApiTweet "103", plainApiTweet "102", plainApiTweet "101"]

/-- Configuration with a bearer token and no mirror-only flag. -/
def demoCfg : Config := { useNitter := false, hasBearerToken := true }

/-- A feed oracle on which every mirror request fails. -/
def feedAllFail : String → Option (List RssItem) := fun _ => none

/-- A minimal feed item whose link yields the given status id. -/
def demoItem (statusId : String) : RssItem :=
  { title := none
    content := some ("post " ++ statusId)
    contentSnippet := none
    link := some ("https://nitter.poast.org/u/status/" ++ statusId)
    guid := statusId }

/-- A feed oracle where the preferred-instance candidate
`nitter.privacydev.net` and the hard-coded first instance
`nitter.poast.org` both answer, with different items. -/
def demoFeedTwoMirrors : String → Option (List RssItem) := fun inst =>
  if inst = "nitter.privacydev.net" then some [demoItem "11"]
  else if inst = "nitter.poast.org" then some [demoItem "22"]
  else none

/-- A feed oracle on which only the third hard-coded mirror
`nitter.net` answers. -/
def feedOnlyNet : String → Option (List RssItem) := fun inst =>
  if inst = "nitter.net" then some [demoItem "33"] else none

/-- An API tweet whose body starts with `@` but whose structured
reference types are empty. -/
def sampleApiReply : ApiTweet :=
  { id := "1", text := "@someone hello", referenced_tweets := some []
    like_count := none, retweet_count := none }

/-- A plain tweet used by delivery-failure witnesses. -/
def demoTweetA : Tweet :=
  { id := "7", text := "hello", username := "u"
    isReply := false, isRetweet := false, isQuote := false
    likes := none, retweets := none }

/-! ## Claim C2 -/

/-- Claim C2 as stated is false at failure count 0: the code returns 0
there, while `min(2^0, 60) = 1`. -/
theorem getBackoffMinutes_zero_ne_min :
    ¬ (getBackoffMinutes 0 = min (2 ^ 0) MAX_BACKOFF_MINUTES) := by
  decide

/-- Claim C2 (amended): the backoff duration is 0 at failure count 0 and
`min(2^f, 60)` minutes for every failure count `f ≥ 1`, giving the
sequence 2, 4, 8, 16, 32, 60, 60, 60 for consecutive failures. -/
theorem getBackoffMinutes_spec :
    getBackoffMinutes 0 = 0
    ∧ (∀ f : Nat, getBackoffMinutes (f + 1) = min (2 ^ (f + 1)) MAX_BACKOFF_MINUTES)
    ∧ [getBackoffMinutes 1, getBackoffMinutes 2, getBackoffMinutes 3,
        getBackoffMinutes 4, getBackoffMinutes 5, getBackoffMinutes 6,
        getBackoffMinutes 7, getBackoffMinutes 8]
        = [2, 4, 8, 16, 32, 60, 60, 60] := by
  refine ⟨rfl, fun f => ?_, by decide⟩
  simp [getBackoffMinutes]

/-! ## Claim C3 -/

/-- After a failure the backoff window is at least 2 minutes. -/
theorem two_le_getBackoffMinutes_succ (f : Nat) :
    2 ≤ getBackoffMinutes (f + 1) := by
  simp only [getBackoffMinutes, Nat.succ_ne_zero, if_false, le_min_iff]
  constructor
  · calc 2 = 2 ^ 1 := by norm_num
      _ ≤ 2 ^ (f + 1) := Nat.pow_le_pow_right (by norm_num) (Nat.le_add_left 1 f)
  · decide

/-- Claim C3: `shouldSkipApi` is true iff the failure counter is positive
and the elapsed time since the last failure is strictly below the
backoff window; it is true immediately after `recordApiFailure`, and
false after `recordApiSuccess` (which resets the counter). -/
theorem shouldSkipApi_spec :
    (∀ (s : BackoffState) (now : Int),
        shouldSkipApi s now = true ↔
          0 < s.apiFailures
          ∧ now - s.lastApiFailure < (getBackoffMinutes s.apiFailures : Int) * 60 * 1000)
    ∧ (∀ (s : BackoffState) (t : Int), shouldSkipApi (recordApiFailure s t) t = true)
    ∧ (∀ (s : BackoffState) (now : Int), shouldSkipApi (recordApiSuccess s) now = false) := by
  refine ⟨fun s now => ?_, fun s t => ?_, fun s now => ?_⟩
  · unfold shouldSkipApi
    rcases Nat.eq_zero_or_pos s.apiFailures with h | h
    · simp [h]
    · simp only [Nat.pos_iff_ne_zero.mp h, if_false]
      constructor
      · intro hlt
        by_cases hc : now - s.lastApiFailure < (getBackoffMinutes s.apiFailures : Int) * 60 * 1000
        · exact ⟨h, hc⟩
        · simp [hc] at hlt
      · intro ⟨_, hc⟩
        simp [hc]
  · unfold shouldSkipApi recordApiFailure
    simp only [Nat.succ_ne_zero, if_false, sub_self]
    have h2 : (2 : Int) ≤ (getBackoffMinutes (s.apiFailures + 1) : Int) := by
      exact_mod_cast two_le_getBackoffMinutes_succ s.apiFailures
    have : (0 : Int) < (getBackoffMinutes (s.apiFailures + 1) : Int) * 60 * 1000 := by
      nlinarith
    simp [this]
  · unfold shouldSkipApi recordApiSuccess
    simp

/-! ## Claim C7 -/

/-- Claim C7: after any save, the persisted array has at most 1000
entries, is exactly the suffix of the 1000 most recently added
identifiers in insertion order, and has exactly 1000 entries whenever
the in-memory set had at least that many. -/
theorem saveProcessedTweets_cap (seen : List String) :
    (saveProcessedTweets seen).length ≤ 1000
    ∧ seen = seen.take (seen.length - 1000) ++ saveProcessedTweets seen
    ∧ (1000 ≤ seen.length → (saveProcessedTweets seen).length = 1000) := by
  refine ⟨?_, ?_, ?_⟩
  · simp only [saveProcessedTweets, List.length_drop]
    omega
  · exact (List.take_append_drop (seen.length - 1000) seen).symm
  · intro h
    simp only [saveProcessedTweets, List.length_drop]
    omega

/-- Witness for claim C7 at a concrete 1001-element set. -/
theorem saveProcessedTweets_cap_witness :
    1000 ≤ (List.replicate 1001 "x").length
    ∧ (saveProcessedTweets (List.replicate 1001 "x")).length = 1000 := by
  have hlen : 1000 ≤ (List.replicate 1001 "x").length := by
    rw [List.length_replicate]
    omega
  exact ⟨hlen, (saveProcessedTweets_cap (List.replicate 1001 "x")).2.2 hlen⟩

/-! ## Claim C9 -/

/-- Claim C9: `loadProcessedTweets` is total (it never raises), returns
the empty set on a missing file and on any parse failure, and returns
the deduplicated identifiers of a well-formed file. -/
theorem loadProcessedTweets_spec :
    loadProcessedTweets (none : FileState) = []
    ∧ loadProcessedTweets (some none : FileState) = []
    ∧ (∀ ids : List String,
        loadProcessedTweets (some (some ids) : FileState) = ids.foldl seenAdd []) := by
  exact ⟨rfl, rfl, fun ids => rfl⟩

/-! ## Claim C6 -/

/-- Claim C6: the primary strategy always returns; it yields an empty
list with the backoff state untouched when the token is absent, when
the tracker signals skip, on a missing user id, and on every non-429
error; exactly a thrown 429 (reached past the guards) records a
failure; and on any error the tweet list is empty. -/
theorem fetchTweetsFromAPI_error_spec :
    (∀ (s : BackoffState) (now : Int) (u : String) (o : ApiOutcome),
        fetchTweetsFromAPI false s now u o = ([], s))
    ∧ (∀ (tok : Bool) (s : BackoffState) (now : Int) (u : String) (o : ApiOutcome),
        shouldSkipApi s now = true → fetchTweetsFromAPI tok s now u o = ([], s))
    ∧ (∀ (tok : Bool) (s : BackoffState) (now : Int) (u : String) (st : Option Nat),
        (fetchTweetsFromAPI tok s now u (.httpError st)).1 = [])
    ∧ (∀ (s : BackoffState) (now : Int) (u : String),
        shouldSkipApi s now = false →
          fetchTweetsFromAPI true s now u (.httpError (some 429))
            = ([], recordApiFailure s now))
    ∧ (∀ (s : BackoffState) (now : Int) (u : String) (st : Option Nat),
        st ≠ some 429 →
          fetchTweetsFromAPI true s now u (.httpError st) = ([], s))
    ∧ (∀ (tok : Bool) (s : BackoffState) (now : Int) (u : String),
        fetchTweetsFromAPI tok s now u .noUserId = ([], s)) := by
  refine ⟨fun s now u o => rfl, fun tok s now u o h => ?_, fun tok s now u st => ?_,
    fun s now u h => ?_, fun s now u st h => ?_, fun tok s now u => ?_⟩
  · unfold fetchTweetsFromAPI
    cases tok <;> simp [h]
  · unfold fetchTweetsFromAPI
    cases tok with
    | false => simp
    | true =>
        by_cases h : shouldSkipApi s now = true <;> simp [h]
  · unfold fetchTweetsFromAPI
    simp [h]
  · unfold fetchTweetsFromAPI
    by_cases hs : shouldSkipApi s now = true <;> simp [hs, h]
  · unfold fetchTweetsFromAPI
    cases tok <;> by_cases hs : shouldSkipApi s now = true <;> simp [hs]

/-- Witness for claim C6 at concrete states: a 429 past the guards
increments the failure counter, and a plain network error (no status)
leaves the state unchanged. -/
theorem fetchTweetsFromAPI_error_spec_witness :
    shouldSkipApi ⟨0, 0⟩ 5 = false
    ∧ fetchTweetsFromAPI true ⟨0, 0⟩ 5 "simon_hypixel" (.httpError (some 429))
        = ([], ⟨1, 5⟩)
    ∧ (some 500 : Option Nat) ≠ some 429
    ∧ fetchTweetsFromAPI true ⟨0, 0⟩ 5 "simon_hypixel" (.httpError (some 500))
        = ([], ⟨0, 0⟩)
    ∧ fetchTweetsFromAPI false ⟨3, 0⟩ 5 "simon_hypixel" (.success []) = ([], ⟨3, 0⟩) := by
  refine ⟨by decide, ?_, by decide, ?_, ?_⟩
  · exact fetchTweetsFromAPI_error_spec.2.2.2.1 ⟨0, 0⟩ 5 "simon_hypixel" (by decide)
  · exact fetchTweetsFromAPI_error_spec.2.2.2.2.1 ⟨0, 0⟩ 5 "simon_hypixel" (some 500) (by decide)
  · exact fetchTweetsFromAPI_error_spec.1 ⟨3, 0⟩ 5 "simon_hypixel" (.success [])

/-! ## Helper lemmas on the seen-set and the dispatch loop -/

/-- Seen-set membership is list membership. -/
theorem seenHas_iff (seen : List String) (id : String) :
    seenHas seen id = true ↔ id ∈ seen := by
  simp [seenHas, List.elem_iff]

/-- Membership after a seen-set insertion. -/
theorem mem_seenAdd (seen : List String) (i j : String) :
    j ∈ seenAdd seen i ↔ j ∈ seen ∨ j = i := by
  unfold seenAdd
  by_cases h : seen.contains i
  · have hi : i ∈ seen := by simpa [List.elem_iff] using h
    simp only [h, if_true]
    constructor
    · exact Or.inl
    · rintro (hj | rfl)
      · exact hj
      · exact hi
  · have h' : i ∉ seen := by simpa [List.elem_iff] using h
    simp [h', List.mem_append]

/-- Every tweet in the dispatch list is attempted, in order. -/
theorem dispatchEach_attempted (deliver : Tweet → Bool) (seen : List String)
    (tweets : List Tweet) :
    ((dispatchEach deliver seen tweets).1.map Prod.fst) = tweets := by
  induction tweets generalizing seen with
  | nil => rfl
  | cons t rest ih => simp [dispatchEach, ih]

/-- Membership in the seen-set after the dispatch loop. -/
theorem mem_dispatchEach_seen (deliver : Tweet → Bool) (tweets : List Tweet)
    (seen : List String) (id : String) :
    id ∈ (dispatchEach deliver seen tweets).2
      ↔ id ∈ seen ∨ ∃ t, t ∈ tweets ∧ deliver t = true ∧ t.id = id := by
  induction tweets generalizing seen with
  | nil => simp [dispatchEach]
  | cons t rest ih =>
    simp only [dispatchEach]
    rw [ih]
    by_cases hd : deliver t = true
    · simp only [hd, if_true, mem_seenAdd, List.mem_cons]
      constructor
      · rintro ((hs | rfl) | ⟨t', ht', hdt', hid⟩)
        · exact Or.inl hs
        · exact Or.inr ⟨t, Or.inl rfl, hd, rfl⟩
        · exact Or.inr ⟨t', Or.inr ht', hdt', hid⟩
      · rintro (hs | ⟨t', (rfl | ht'), hdt', hid⟩)
        · exact Or.inl (Or.inl hs)
        · exact Or.inl (Or.inr hid.symm)
        · exact Or.inr ⟨t', ht', hdt', hid⟩
    · simp only [hd, if_false, List.mem_cons]
      constructor
      · rintro (hs | ⟨t', ht', hdt', hid⟩)
        · exact Or.inl hs
        · exact Or.inr ⟨t', Or.inr ht', hdt', hid⟩
      · rintro (hs | ⟨t', (rfl | ht'), hdt', hid⟩)
        · exact Or.inl hs
        · exact absurd hdt' hd
        · exact Or.inr ⟨t', ht', hdt', hid⟩

/-! ## Claim C1 -/

/-- Claim C1: the dispatched subset is the fetched list filtered to
identifiers outside the seen-set, in reverse-of-fetch (oldest-first)
order; in the scenario with seen-set containing 100 and 101 and a
newest-first fetch of 103, 102, 101, the dispatch order is 102 then
103 and, with every delivery succeeding, the final seen-set holds
exactly 100, 101, 102, 103 in insertion order. -/
theorem dedup_dispatch_spec :
    (∀ (seen : List String) (tweets : List Tweet),
        newTweetsOf seen tweets
          = tweets.reverse.filter (fun t => !(seenHas seen t.id)))
    ∧ ((checkHandle demoCfg ⟨0, 0⟩ 0 "Hytale" (.success demoFetchC1) feedAllFail
          (fun _ => true) ["100", "101"]).dispatched.map Tweet.id = ["102", "103"])
    ∧ ((checkHandle demoCfg ⟨0, 0⟩ 0 "Hytale" (.success demoFetchC1) feedAllFail
          (fun _ => true) ["100", "101"]).seenAfter
          = ["100", "101", "102", "103"]) := by
  refine ⟨fun seen tweets => ?_, by decide, by decide⟩
  unfold newTweetsOf
  exact (List.filter_reverse _ _).symm

/-! ## Claim C4 -/

/-- Claim C4: the primary strategy is invoked exactly when the
mirror-only flag is falsy, a credential is configured, and the backoff
tracker does not signal skip; a skipped primary yields no tweets; and
whenever the primary result is empty (for any reason, including not
being invoked) the mirror fallback is attempted. -/
theorem select_source_fallback_spec :
    (∀ (cfg : Config) (s : BackoffState) (now : Int) (u : String) (o : ApiOutcome)
        (nf : String → Option (List RssItem)) (d : Tweet → Bool) (seen : List String),
        (checkHandle cfg s now u o nf d seen).apiInvoked = true
          ↔ cfg.useNitter = false ∧ cfg.hasBearerToken = true
            ∧ shouldSkipApi s now = false)
    ∧ (∀ (cfg : Config) (s : BackoffState) (now : Int) (u : String) (o : ApiOutcome)
        (nf : String → Option (List RssItem)) (d : Tweet → Bool) (seen : List String),
        (checkHandle cfg s now u o nf d seen).apiInvoked = false →
          (checkHandle cfg s now u o nf d seen).apiTweets = [])
    ∧ (∀ (cfg : Config) (s : BackoffState) (now : Int) (u : String) (o : ApiOutcome)
        (nf : String → Option (List RssItem)) (d : Tweet → Bool) (seen : List String),
        (checkHandle cfg s now u o nf d seen).apiTweets = [] →
          (checkHandle cfg s now u o nf d seen).nitterInvoked = true) := by
  refine ⟨fun cfg s now u o nf d seen => ?_, fun cfg s now u o nf d seen h => ?_,
    fun cfg s now u o nf d seen h => ?_⟩
  · simp [checkHandle, Bool.and_eq_true, Bool.not_eq_true', and_assoc]
  · simp only [checkHandle] at h ⊢
    rw [h]
    rfl
  · simp only [checkHandle] at h ⊢
    rw [h]
    rfl

/-- Witness for claim C4: with the primary outcome empty, the mirror
fallback is invoked. -/
theorem select_source_fallback_spec_witness :
    (checkHandle demoCfg ⟨0, 0⟩ 0 "Hytale" (.success []) feedAllFail
        (fun _ => false) []).apiTweets = []
    ∧ (checkHandle demoCfg ⟨0, 0⟩ 0 "Hytale" (.success []) feedAllFail
        (fun _ => false) []).nitterInvoked = true := by
  have h : (checkHandle demoCfg ⟨0, 0⟩ 0 "Hytale" (.success []) feedAllFail
      (fun _ => false) []).apiTweets = [] := by decide
  exact ⟨h, select_source_fallback_spec.2.2 demoCfg ⟨0, 0⟩ 0 "Hytale" (.success [])
    feedAllFail (fun _ => false) [] h⟩

/-! ## Claim C5 -/

/-- Claim C5 as stated is false: src/index.js never imports
`rss-parser`, so every invocation of the fallback throws a
`ReferenceError` before consulting any mirror — at a concrete feed
where `nitter.privacydev.net` (the preferred instance of the spec's
configuration) would answer, the function yields a thrown error rather
than that mirror's posts, and the list its unreachable loop would
consult is hard-coded, headed by `nitter.poast.org`. -/
theorem nitter_throws_counterexample :
    fetchTweetsFromNitter demoFeedTwoMirrors "u"
        = Except.error "ReferenceError: Parser is not defined"
    ∧ demoFeedTwoMirrors "nitter.privacydev.net" = some [demoItem "11"]
    ∧ fetchTweetsFromNitter demoFeedTwoMirrors "u"
        ≠ Except.ok [nitterItemToTweet "u" (demoItem "11")]
    ∧ nitterInstances.head? = some "nitter.poast.org" := by
  refine ⟨rfl, by decide, ?_, rfl⟩
  intro h
  exact Except.noConfusion h

/-- The mirror loop returns nothing when every instance errors or is
empty. -/
theorem nitterLoop_all_empty (feed : String → Option (List RssItem)) (u : String) :
    ∀ insts : List String, (∀ i, i ∈ insts → feed i = none ∨ feed i = some []) →
      nitterLoop feed u insts = [] := by
  intro insts h
  induction insts with
  | nil => rfl
  | cons a rest ih =>
    have h' : ∀ i, i ∈ rest → feed i = none ∨ feed i = some [] :=
      fun i hi => h i (List.mem_cons_of_mem a hi)
    rcases h a (List.mem_cons_self a rest) with ha | ha <;>
      simp only [nitterLoop, ha, List.isEmpty_nil, if_true] <;> exact ih h'

/-- The mirror loop stops at the first instance yielding at least one
item. -/
theorem nitterLoop_first_success (feed : String → Option (List RssItem)) (u : String) :
    ∀ (pre : List String) (inst : String) (post : List String) (items : List RssItem),
      (∀ i, i ∈ pre → feed i = none ∨ feed i = some []) →
      feed inst = some items → items ≠ [] →
      nitterLoop feed u (pre ++ inst :: post)
        = (items.take 5).map (nitterItemToTweet u) := by
  intro pre
  induction pre with
  | nil =>
    intro inst post items _ hin hne
    have hempty : items.isEmpty = false := by
      cases items with
      | nil => exact absurd rfl hne
      | cons x xs => rfl
    simp only [List.nil_append, nitterLoop, hin, hempty, Bool.false_eq_true, if_false]
  | cons a rest ih =>
    intro inst post items hpre hin hne
    have h' : ∀ i, i ∈ rest → feed i = none ∨ feed i = some [] :=
      fun i hi => hpre i (List.mem_cons_of_mem a hi)
    rcases hpre a (List.mem_cons_self a rest) with ha | ha <;>
      simp only [List.cons_append, nitterLoop, ha, List.isEmpty_nil, if_true] <;>
      exact ih inst post items h' hin hne

/-- The mirror loop returns at most 5 tweets. -/
theorem nitterLoop_length_le (feed : String → Option (List RssItem)) (u : String) :
    ∀ insts : List String, (nitterLoop feed u insts).length ≤ 5 := by
  intro insts
  induction insts with
  | nil => simp [nitterLoop]
  | cons a rest ih =>
    simp only [nitterLoop]
    cases hfa : feed a with
    | none => exact ih
    | some items =>
      by_cases he : items.isEmpty
      · simp only [he, if_true]
        exact ih
      · simp only [he, Bool.false_eq_true, if_false, List.length_map, List.length_take]
        exact min_le_left _ _

/-- Claim C5 (amended): as written, the fallback never returns posts —
src/index.js omits the `rss-parser` import, so every invocation of
`fetchTweetsFromNitter` throws a `ReferenceError` before any mirror is
consulted (in particular the backoff tracker's state is never
modified).  Its unreachable mirror loop, were the parser available,
would iterate the fixed hard-coded list (no configured preferred
instance exists in this variant), return empty when every mirror
errors or is empty, and stop at the first mirror yielding any items,
capped to the 5 most recent. -/
theorem fetchTweetsFromNitter_spec :
    (∀ (feed : String → Option (List RssItem)) (u : String),
        fetchTweetsFromNitter feed u
          = Except.error "ReferenceError: Parser is not defined")
    ∧ (∀ (feed : String → Option (List RssItem)) (u : String),
        (∀ i, i ∈ nitterInstances → feed i = none ∨ feed i = some []) →
          nitterLoop feed u nitterInstances = [])
    ∧ (∀ (feed : String → Option (List RssItem)) (u : String),
        (nitterLoop feed u nitterInstances).length ≤ 5)
    ∧ (∀ (feed : String → Option (List RssItem)) (u : String)
        (pre : List String) (inst : String) (post : List String) (items : List RssItem),
        nitterInstances = pre ++ inst :: post →
        (∀ i, i ∈ pre → feed i = none ∨ feed i = some []) →
        feed inst = some items → items ≠ [] →
          nitterLoop feed u nitterInstances = (items.take 5).map (nitterItemToTweet u)) := by
  refine ⟨fun feed u => rfl,
    fun feed u h => nitterLoop_all_empty feed u nitterInstances h,
    fun feed u => nitterLoop_length_le feed u nitterInstances,
    fun feed u pre inst post items hlist hpre hin hne => ?_⟩
  rw [hlist]
  exact nitterLoop_first_success feed u pre inst post items hpre hin hne

/-- Witness for claim C5: the fallback throws at a concrete feed; its
loop yields nothing when all mirrors fail, and with only the third
hard-coded mirror answering the loop would return that mirror's
items. -/
theorem fetchTweetsFromNitter_spec_witness :
    fetchTweetsFromNitter feedAllFail "u"
        = Except.error "ReferenceError: Parser is not defined"
    ∧ nitterLoop feedAllFail "u" nitterInstances = []
    ∧ nitterLoop feedOnlyNet "u" nitterInstances
        = [nitterItemToTweet "u" (demoItem "33")] := by
  refine ⟨fetchTweetsFromNitter_spec.1 feedAllFail "u",
    fetchTweetsFromNitter_spec.2.1 feedAllFail "u" (fun i _ => Or.inl rfl), ?_⟩
  have h := fetchTweetsFromNitter_spec.2.2.2 feedOnlyNet "u"
    ["nitter.poast.org", "nitter.privacydev.net"] "nitter.net" ["nitter.cz"]
    [demoItem "33"] rfl (by decide) rfl (by decide)
  simpa using h

/-! ## Claim C8 -/

/-- Claim C8: every surviving tweet is attempted in order regardless of
earlier failures; an identifier is in the final seen-set iff it was
already there or some tweet bearing it was delivered successfully; and
a tweet whose every delivery fails stays outside the seen-set, so the
next cycle's filter keeps it (at-least-once delivery). -/
theorem dispatch_at_least_once_spec :
    (∀ (deliver : Tweet → Bool) (seen : List String) (tweets : List Tweet),
        ((dispatchEach deliver seen tweets).1.map Prod.fst) = tweets)
    ∧ (∀ (deliver : Tweet → Bool) (seen : List String) (tweets : List Tweet) (id : String),
        seenHas (dispatchEach deliver seen tweets).2 id = true
          ↔ seenHas seen id = true
            ∨ ∃ t, t ∈ tweets ∧ deliver t = true ∧ t.id = id)
    ∧ (∀ (deliver : Tweet → Bool) (seen : List String) (tweets : List Tweet) (t : Tweet),
        t ∈ tweets → seenHas seen t.id = false →
        (∀ t', t' ∈ tweets → t'.id = t.id → deliver t' = false) →
          seenHas (dispatchEach deliver seen tweets).2 t.id = false
          ∧ newTweetsOf (dispatchEach deliver seen tweets).2 [t] = [t]) := by
  refine ⟨dispatchEach_attempted, fun deliver seen tweets id => ?_,
    fun deliver seen tweets t ht hseen hfail => ?_⟩
  · rw [seenHas_iff, seenHas_iff]
    exact mem_dispatchEach_seen deliver tweets seen id
  · have hmem : seenHas (dispatchEach deliver seen tweets).2 t.id = false := by
      rw [← Bool.not_eq_true, seenHas_iff, mem_dispatchEach_seen]
      rintro (hs | ⟨t', ht', hdt', hid⟩)
      · rw [← seenHas_iff] at hs
        exact absurd hs (by simp [hseen])
      · exact absurd hdt' (by simp [hfail t' ht' hid])
    refine ⟨hmem, ?_⟩
    unfold newTweetsOf
    simp [hmem]

/-- Witness for claim C8: a single tweet whose delivery fails is
attempted, stays outside the seen-set, and survives the next cycle's
filter. -/
theorem dispatch_at_least_once_spec_witness :
    demoTweetA ∈ [demoTweetA]
    ∧ seenHas [] demoTweetA.id = false
    ∧ seenHas (dispatchEach (fun _ => false) [] [demoTweetA]).2 demoTweetA.id = false
    ∧ newTweetsOf (dispatchEach (fun _ => false) [] [demoTweetA]).2 [demoTweetA]
        = [demoTweetA] := by
  have h := dispatch_at_least_once_spec.2.2 (fun _ => false) [] [demoTweetA] demoTweetA
    (by simp) (by decide) (fun t' _ _ => rfl)
  exact ⟨by simp, by decide, h.1, h.2⟩

/-! ## Claim C10 -/

/-- Claim C10 as stated is false: the text-prefix heuristic also runs in
the shared formatting step, so an authenticated-path tweet whose body
starts with `@` while its structured reference flags are all false is
still formatted with the reply color. -/
theorem api_text_prefix_counterexample :
    (apiTweetToTweet "Hytale" sampleApiReply).isReply = false
    ∧ (apiTweetToTweet "Hytale" sampleApiReply).isRetweet = false
    ∧ (apiTweetToTweet "Hytale" sampleApiReply).isQuote = false
    ∧ createTweetEmbedColor (apiTweetToTweet "Hytale" sampleApiReply) = COLORS_reply
    ∧ COLORS_reply ≠ COLORS_tweet := by
  decide

/-- Claim C10 (amended): the primary mapping's flags are computed solely
from the structured reference types and the fallback mapping's flags
from text prefixes and title heuristics, but the shared formatting step
ORs the flags with the `@` / `RT @` text prefixes, so both paths are
subject to the prefix heuristic at formatting time. -/
theorem prefix_classification_spec :
    (∀ (u : String) (a : ApiTweet),
        (apiTweetToTweet u a).isReply
            = (a.referenced_tweets.getD []).any (fun rt => rt.type == "replied_to")
          ∧ (apiTweetToTweet u a).isRetweet
            = (a.referenced_tweets.getD []).any (fun rt => rt.type == "retweeted"))
    ∧ (∀ t : Tweet,
        createTweetEmbedColor t = COLORS_reply
          ↔ (t.isReply || startsWithStr t.text "@") = true)
    ∧ (∀ t : Tweet,
        createTweetEmbedColor t = COLORS_retweet
          ↔ (t.isReply || startsWithStr t.text "@") = false
            ∧ (t.isRetweet || startsWithStr t.text "RT @") = true)
    ∧ (∀ (u : String) (i : RssItem),
        (nitterItemToTweet u i).isReply
          = (startsWithStr (jsTrim (stripTags (rawText i))) "@"
              || ((i.title.map (fun t => containsSub t "replying to")).getD false))) := by
  refine ⟨fun u a => ⟨rfl, rfl⟩, fun t => ?_, fun t => ?_, fun u i => rfl⟩
  · unfold createTweetEmbedColor
    by_cases h : (t.isReply || startsWithStr t.text "@") = true
    · simp [h]
    · simp only [Bool.not_eq_true] at h
      simp only [h, Bool.false_eq_true, if_false]
      split_ifs <;> simp [h] <;> decide
  · unfold createTweetEmbedColor
    by_cases h : (t.isReply || startsWithStr t.text "@") = true
    · simp only [h, if_true]
      constructor
      · intro hc
        exact absurd hc (by decide)
      · rintro ⟨hf, _⟩
        exact absurd hf (by decide)
    · simp only [Bool.not_eq_true] at h
      simp only [h, Bool.false_eq_true, if_false]
      by_cases h2 : (t.isRetweet || startsWithStr t.text "RT @") = true
      · simp [h2]
      · simp only [Bool.not_eq_true] at h2
        simp only [h2, Bool.false_eq_true, if_false]
        split_ifs <;> simp [h2] <;> decide

end TwitterBot
